import Mathlib

/-!
Verification of the `useGsap` composable (src/runtime/composables/use-gsap/index.ts)
and the baked-preset option merge (src/runtime/baked/types.ts) of the nugget
repository.

The composable is glue code between a reactive UI framework and the GSAP
animation engine.  We embed it as an explicit state machine over event traces:

* the engine is opaque — creating a tween or a timeline allocates a fresh
  numeric handle and emits an `Event.engineCall` / `Event.timelineCreate`;
  killing a handle emits `Event.kill`;
* the reactive watch registered by `activationFn` (index.ts:34-43) is driven
  by an explicit list of ticks, each tick carrying the value the target
  reference resolves to on that tick (`none` = absent);
* JavaScript variable capture is modelled precisely: each of `set`, `to`,
  `from`, `fromTo` declares `let tween` (initially `undefined`) and passes it
  BY VALUE to `activationFn`; the scope-dispose closure
  `() => tween?.kill()` (index.ts:42) captures `activationFn`'s parameter,
  while the per-tick update closure assigns the builder's outer variable.
  The two are therefore distinct slots of `BindingState`.
-/

namespace Nugget

/-- Opaque animation-engine handles (tweens and timelines), allocated freshly. -/
abbrev Handle := Nat

/-- Which engine factory a tween binding uses: the four builders at
index.ts:79-122 are identical apart from the gsap function they invoke. -/
inductive FactoryKind
  | set
  | to
  | «from»
  | fromTo
deriving DecidableEq, Repr

/-- Observable side effects on the animation engine. -/
inductive Event
  | engineCall (fk : FactoryKind) (target : Nat) (h : Handle)
  | kill (h : Handle)
  | timelineCreate (h : Handle)
  | registerPluginCall (plugins : List String)
deriving DecidableEq, Repr

/-- State of one tween binding created by `set`/`to`/`from`/`fromTo`.

`tweenOuter` is the builder's `let tween` variable (e.g. index.ts:104),
assigned by the update closure on each run; `tweenParam` is `activationFn`'s
`tween` parameter (index.ts:36), the value captured by the scope-dispose
closure; `nextHandle` is the engine's fresh-handle counter. -/
structure BindingState where
  tweenOuter : Option Handle
  tweenParam : Option Handle
  nextHandle : Handle
deriving DecidableEq, Repr

/-- Creating a binding (any of index.ts:79-122): `let tween` starts
`undefined`, and `activationFn` receives the current VALUE of that variable
(JavaScript pass-by-value), which its dispose closure then captures. -/
def bindingInit (next : Handle) : BindingState :=
  let tweenOuter : Option Handle := none
  { tweenOuter := tweenOuter
    tweenParam := tweenOuter
    nextHandle := next }

/-- One run of the update closure handed to `activationFn`
(e.g. index.ts:105-108): resolve the target; if absent (`if (!el) return`)
do nothing; if present, call the engine factory and store the fresh handle
in the builder's outer `tween` variable. -/
def updateFactory (fk : FactoryKind) (st : BindingState) (el : Option Nat) :
    BindingState × List Event :=
  match el with
  | none => (st, [])
  | some t =>
      ({ st with
          tweenOuter := some st.nextHandle
          nextHandle := st.nextHandle + 1 },
       [Event.engineCall fk t st.nextHandle])

/-- The reactive watch registered by `watchPostEffect` (index.ts:40), driven
by an explicit tick list: it runs once immediately and once per dependency
change, each run resolving the target to `el` and invoking the update
closure. -/
def runTicks (fk : FactoryKind) (st : BindingState) :
    List (Option Nat) → BindingState × List Event
  | [] => (st, [])
  | el :: rest =>
      let stepped := updateFactory fk st el
      let tail := runTicks fk stepped.1 rest
      (tail.1, stepped.2 ++ tail.2)

/-- The scope-dispose callback `() => tween?.kill()` (index.ts:42): it reads
the captured `tween` parameter; optional chaining makes the call a silent
no-op when that value is `undefined`. -/
def scopeDispose (st : BindingState) : List Event :=
  match st.tweenParam with
  | none => []
  | some h => [Event.kill h]

/-- Lifecycle-registration primitives the composable calls at creation time. -/
inductive SetupCall
  | watchPostEffect
  | tryOnScopeDispose
  | tryOnMounted
  | createEventHook
deriving DecidableEq, Repr

/-- The registrations `activationFn` performs, in order (index.ts:40-42):
one reactive watch and one scope-dispose callback. -/
def activationSetup : List SetupCall :=
  [SetupCall.watchPostEffect, SetupCall.tryOnScopeDispose]

/-- The registrations `timeline` performs, in order (index.ts:60-62): one
event hook creation and one mount callback; no scope-dispose registration. -/
def timelineSetup : List SetupCall :=
  [SetupCall.createEventHook, SetupCall.tryOnMounted]

/-- The only handler behaviour occurring in the timeline code:
`(tl) => tl.kill()` (index.ts:64). -/
inductive TLHandlerBehavior
  | killHandler
deriving DecidableEq, Repr

/-- A VueUse `createEventHook`: a list of registered handlers, each a pair of
a closure identity (JavaScript function reference) and its behaviour. -/
structure EventHook where
  handlers : List (Nat × TLHandlerBehavior)
deriving DecidableEq, Repr

/-- `hook.off(fn)` removes the handler whose function reference equals `fn`;
a function that was never registered matches nothing. -/
def EventHook.off (hk : EventHook) (fid : Nat) : EventHook :=
  { handlers := hk.handlers.filter (fun p => p.1 ≠ fid) }

/-- Effect of running one registered handler on the timeline handle. -/
def runHandler : TLHandlerBehavior → Handle → Event
  | TLHandlerBehavior.killHandler, tl => Event.kill tl

/-- `hook.trigger(tl)` invokes every registered handler on the payload. -/
def EventHook.trigger (hk : EventHook) (tl : Handle) : List Event :=
  hk.handlers.map (fun p => runHandler p.2 tl)

/-- Result of `timeline(vars)` (index.ts:57-77): the eagerly created handle,
the mount event hook, the engine events emitted during the call itself, and
the scope-dispose callbacks registered (none). -/
structure TimelineResult where
  tl : Handle
  onMount : EventHook
  creationEvents : List Event
  disposeCallbacks : List (List Event)
deriving DecidableEq, Repr

/-- `timeline(vars)` (index.ts:57-77): `gsap.timeline(vars)` runs eagerly at
call time; `createEventHook` starts with no handlers; `tryOnMounted`
registers a mount callback that will trigger the hook; `onMount.off((tl) =>
tl.kill())` passes a FRESH closure (reference `offArg`) that was never
registered, so the removal matches nothing. -/
def timelineCreate (next : Handle) (offArg : Nat) : TimelineResult :=
  let tl := next
  let onMount : EventHook := { handlers := [] }
  let onMount := onMount.off offArg
  { tl := tl
    onMount := onMount
    creationEvents := [Event.timelineCreate tl]
    disposeCallbacks := [] }

/-- The mount callback registered by `tryOnMounted` (index.ts:62): when the
component mounts, the hook is triggered with the timeline handle. -/
def fireMount (r : TimelineResult) : List Event :=
  r.onMount.trigger r.tl

/-- Events emitted when the owning scope ends: every registered
scope-dispose callback runs. -/
def timelineScopeEnd (r : TimelineResult) : List Event :=
  r.disposeCallbacks.flatten

/-- Operations of the control surface the timeline returns (index.ts:69-75). -/
inductive TLOp
  | play
  | pause
  | restart
  | resume
  | progress (v : Nat)
  | seek (v : Nat)
  | isActive
deriving DecidableEq, Repr

/-- Invoking a control operation: calling a method on an absent handle
faults; on a present handle it delegates to the engine. -/
def controlCall (h : Option Handle) (op : TLOp) : Except String (Handle × TLOp) :=
  match h with
  | none => Except.error "cannot call a method of undefined"
  | some hd => Except.ok (hd, op)

/-- The handle slot the timeline's control closures read: the timeline is
constructed at line 58, before the control surface is built, so the slot is
always populated. -/
def TimelineResult.handleSlot (r : TimelineResult) : Option Handle :=
  some r.tl

/-- The default plugin set of `useGsap` (index.ts:52). -/
def defaultPlugins : List String := ["ScrollTrigger"]

/-- The `gsap.registerPlugin(...plugins)` call one invocation of
`useGsap` performs (index.ts:52-53): the caller's plugin list, or the
default when omitted. -/
def useGsapRegistration : Option (List String) → Event
  | some ps => Event.registerPluginCall ps
  | none => Event.registerPluginCall defaultPlugins

/-- Registration events of a sequence of `useGsap` calls: line 53 runs
unconditionally in the function body, hence once per call. -/
def useGsapTrace (calls : List (Option (List String))) : List Event :=
  calls.map useGsapRegistration

/-- Recognizer for plugin-registration events. -/
def Event.isRegister : Event → Bool
  | Event.registerPluginCall _ => true
  | _ => false

/-- Values of animation-option fields.  `obj` lets an option field itself be
a structured object, so that shallow versus deep merging is observable. -/
inductive JValue
  | num (n : Int)
  | str (s : String)
  | obj (fields : List (String × JValue))

/-- First binding of a field name in an options object. -/
def lookupField (k : String) : List (String × JValue) → Option JValue
  | [] => none
  | (k', v) :: rest => if k = k' then some v else lookupField k rest

/-- Modelled from the spec: the preset resolver's merge code is not part of
the sources under verification (src/runtime/baked/types.ts only declares the
options type `UseBakedAnimationOptions`).  Per the spec, caller overrides
"are merged on top of the preset's defaults before being handed to the
engine; merge semantics are shallow field replacement", i.e. the JavaScript
spread `{...preset, ...overrides}`: the preset's fields in order, each
replaced wholesale by the override's value when the override defines it,
followed by the override's fields the preset does not define. -/
def mergeVars (preset overrides : List (String × JValue)) :
    List (String × JValue) :=
  (preset.map (fun p =>
      match lookupField p.1 overrides with
      | some v => (p.1, v)
      | none => p))
    ++ overrides.filter (fun o => (lookupField o.1 preset).isNone)

/-- Modelled from the spec: field-wise reading of the merge contract — "an
override field wins if both preset and override define it", otherwise the
preset's default applies. -/
def shallowMergeSpec (preset overrides : List (String × JValue)) (k : String) :
    Option JValue :=
  match lookupField k overrides with
  | some v => some v
  | none => lookupField k preset

/-- The spec's worked example: preset `{duration:1, ease:"power1"}`. -/
def presetExample : List (String × JValue) :=
  [("duration", JValue.num 1), ("ease", JValue.str "power1")]

/-- The spec's worked example: override `{duration:2}`. -/
def overrideExample : List (String × JValue) :=
  [("duration", JValue.num 2)]

lemma lookupField_append (k : String) (a b : List (String × JValue)) :
    lookupField k (a ++ b) =
      match lookupField k a with
      | some v => some v
      | none => lookupField k b := by
  induction a with
  | nil => simp [lookupField]
  | cons p rest ih =>
      by_cases h : k = p.1
      · simp [lookupField, h]
      · simpa [lookupField, h] using ih

lemma lookupField_overridden (k : String) (p o : List (String × JValue)) :
    lookupField k
        (p.map (fun q =>
          match lookupField q.1 o with
          | some v => (q.1, v)
          | none => q)) =
      match lookupField k p with
      | some a =>
          some (match lookupField k o with
                | some v => v
                | none => a)
      | none => none := by
  induction p with
  | nil => simp [lookupField]
  | cons q rest ih =>
      by_cases h : k = q.1
      · subst h
        cases hq : lookupField q.1 o with
        | none => simp [lookupField, hq]
        | some v => simp [lookupField, hq]
      · cases hq : lookupField q.1 o with
        | none => simpa [lookupField, h, hq] using ih
        | some v => simpa [lookupField, h, hq] using ih

lemma lookupField_filter_new (k : String) (p o : List (String × JValue)) :
    lookupField k (o.filter (fun q => (lookupField q.1 p).isNone)) =
      match lookupField k p with
      | some _ =>
          lookupField k (o.filter (fun q => (lookupField q.1 p).isNone))
      | none => lookupField k o := by
  cases hp : lookupField k p with
  | some a => rfl
  | none =>
      induction o with
      | nil => simp [lookupField]
      | cons q rest ih =>
          by_cases h : k = q.1
          · subst h
            simp [List.filter, lookupField, hp]
          · cases hq : (lookupField q.1 p).isNone with
            | true => simpa [List.filter, lookupField, h, hq] using ih
            | false => simpa [List.filter, lookupField, h, hq] using ih

lemma mergeVars_lookup (p o : List (String × JValue)) (k : String) :
    lookupField k (mergeVars p o) = shallowMergeSpec p o k := by
  unfold mergeVars shallowMergeSpec
  rw [lookupField_append, lookupField_overridden]
  cases hp : lookupField k p with
  | some a =>
      cases ho : lookupField k o with
      | some v => simp
      | none => simp [hp]
  | none =>
      have hfil := lookupField_filter_new k p o
      rw [hp] at hfil
      rw [hfil]
      cases ho : lookupField k o with
      | some v => simp
      | none => simp [hp]

end Nugget

namespace Nugget

/-- Claim C1: the spec requires the scope teardown of a tween binding to
kill whatever handle is current at teardown time, and the code plainly
intends this — each builder passes its `tween` variable to `activationFn`
solely so the dispose closure can call `tween?.kill()` — but JavaScript
passes the VALUE of `tween` (always `undefined` at creation), so the
captured parameter never sees the handle later stored in the builder's
variable.  At the failing input (one tick resolving to element 7, then scope
end) a handle is current, yet the teardown emits no kill; with no handle
ever created the teardown is still a silent no-op (no fault). -/
theorem teardown_never_kills_created_handle :
    (runTicks FactoryKind.to (bindingInit 0) [some 7]).1.tweenOuter = some 0
    ∧ scopeDispose (runTicks FactoryKind.to (bindingInit 0) [some 7]).1 = []
    ∧ scopeDispose (bindingInit 0) = [] :=
  ⟨rfl, rfl, rfl⟩

/-- Claim C2: a binding never invokes the engine with an absent target: a
tick whose resolution is `none` leaves the state unchanged and emits no
engine event (`if (!el) return`, index.ts:85/97/106/118), and a whole run of
absent ticks emits nothing. -/
theorem absent_target_never_calls_engine (fk : FactoryKind)
    (st : BindingState) (k : Nat) :
    updateFactory fk st none = (st, [])
    ∧ runTicks fk st (List.replicate k none) = (st, []) := by
  refine ⟨rfl, ?_⟩
  induction k with
  | zero => rfl
  | succ m ih => simpa [List.replicate, runTicks, updateFactory] using ih

/-- Claim C3, counterexample: at a concrete timeline creation (handle 0,
`off` argument closure 5) the mount hook has no registered handler — the
code calls `onMount.off`, not `onMount.on`, with a closure that was never
registered — so it is false that exactly one handler is pre-registered and
that firing the hook at mount kills the timeline handle. -/
theorem timeline_mount_kill_cex :
    ¬ ((timelineCreate 0 5).onMount.handlers.length = 1
        ∧ Event.kill 0 ∈ fireMount (timelineCreate 0 5)) := by
  decide

/-- Claim C3, amended: for every timeline created by `timeline()`, NO
handler is registered on the mount event hook (the `off` call with a fresh,
never-registered function removes nothing from the empty handler list), and
when the hook fires at mount no event is emitted: the timeline handle is
not destroyed. -/
theorem timeline_mount_hook_registers_nothing (n offArg : Nat) :
    (timelineCreate n offArg).onMount.handlers = []
    ∧ fireMount (timelineCreate n offArg) = [] :=
  ⟨rfl, rfl⟩

/-- Claim C4, counterexample: two successive `useGsap()` calls (both with
the default plugin set) perform two plugin registrations, not one — line 53
runs unconditionally in the function body — refuting that registration
happens only at first use. -/
theorem plugin_registration_twice_cex :
    (useGsapTrace [none, none]).countP Event.isRegister = 2
    ∧ ¬ (useGsapTrace [none, none]).countP Event.isRegister = 1 := by
  decide

/-- Claim C4, amended: every call to `useGsap` invokes the engine's
`registerPlugin` — a sequence of n calls performs exactly n registrations —
with `ScrollTrigger` as the default plugin set and the caller's list used
verbatim when supplied; no once-guard exists in this code (idempotence is
left to the engine's own `registerPlugin`). -/
theorem plugin_registration_per_call (calls : List (Option (List String))) :
    (useGsapTrace calls).countP Event.isRegister = calls.length
    ∧ useGsapRegistration none = Event.registerPluginCall ["ScrollTrigger"]
    ∧ ∀ ps, useGsapRegistration (some ps) = Event.registerPluginCall ps := by
  refine ⟨?_, rfl, fun ps => rfl⟩
  induction calls with
  | nil => rfl
  | cons c rest ih =>
      cases c <;> simpa [useGsapTrace, useGsapRegistration, Event.isRegister]
        using ih

/-- Claim C5: when the target reference resolves to a concrete value on the
initial watch run, the engine factory call is the very first event of the
run — it happens synchronously inside that run, before any later tick, for
each of the four builders. -/
theorem present_target_engine_call_in_initial_run (fk : FactoryKind)
    (n t : Nat) (rest : List (Option Nat)) :
    ∃ tail, (runTicks fk (bindingInit n) (some t :: rest)).2
      = Event.engineCall fk t n :: tail := by
  refine ⟨(runTicks fk
      { tweenOuter := some n, tweenParam := none, nextHandle := n + 1 }
      rest).2, ?_⟩
  simp [runTicks, updateFactory, bindingInit]

/-- Claim C6: `timeline()` creates the timeline handle eagerly at call time
(the engine's timeline factory fires during the call itself, gated on
nothing), and every control operation of the returned surface
(play/pause/restart/resume/progress/seek/isActive) reads a populated handle
slot, so calling it before the mount event fires succeeds and never
faults. -/
theorem timeline_eager_control_safe (n offArg : Nat) (op : TLOp) :
    (timelineCreate n offArg).creationEvents = [Event.timelineCreate n]
    ∧ controlCall (timelineCreate n offArg).handleSlot op = Except.ok (n, op) :=
  ⟨rfl, rfl⟩

/-- Claim C7: a binding whose target is absent for the first k ticks and
present at the next tick invokes the engine factory exactly once, at that
first present tick (the run's whole event trace is that single engine
call); the absent prefix alone emits nothing. -/
theorem late_target_single_engine_call (fk : FactoryKind) (n t k : Nat) :
    (runTicks fk (bindingInit n) (List.replicate k none ++ [some t])).2
      = [Event.engineCall fk t n]
    ∧ (runTicks fk (bindingInit n) (List.replicate k none)).2 = [] := by
  induction k with
  | zero => exact ⟨rfl, rfl⟩
  | succ m ih =>
      refine ⟨?_, ?_⟩
      · simpa [List.replicate, runTicks, updateFactory] using ih.1
      · simpa [List.replicate, runTicks, updateFactory] using ih.2

/-- Claim C8: when the resolved target changes from one present value t₁ to
another t₂, the second tick creates a fresh handle (n+1) and stores it as
the current handle — replacing, not keeping, handle n — while the event
trace contains exactly the two engine calls and no kill of the first
handle. -/
theorem target_change_new_handle_no_kill (fk : FactoryKind) (n t₁ t₂ : Nat) :
    (runTicks fk (bindingInit n) [some t₁, some t₂]).1.tweenOuter = some (n + 1)
    ∧ (runTicks fk (bindingInit n) [some t₁, some t₂]).1.tweenOuter ≠ some n
    ∧ (runTicks fk (bindingInit n) [some t₁, some t₂]).2
        = [Event.engineCall fk t₁ n, Event.engineCall fk t₂ (n + 1)]
    ∧ Event.kill n ∉ (runTicks fk (bindingInit n) [some t₁, some t₂]).2 := by
  refine ⟨rfl, ?_, rfl, ?_⟩
  · simp [runTicks, updateFactory, bindingInit]
  · simp [runTicks, updateFactory, bindingInit]

/-- Claim C9: preset resolution merges overrides on top of preset defaults
by shallow field replacement — field-wise, the merged options agree with
the spec's contract (override wins wholesale whenever it defines the field,
even for object-valued fields, with no recursive merge; otherwise the
preset's default survives) — and on the spec's worked example, preset
`{duration:1, ease:"power1"}` with override `{duration:2}` resolves to
exactly `{duration:2, ease:"power1"}`. -/
theorem preset_merge_shallow_replacement :
    (∀ p o k, lookupField k (mergeVars p o) = shallowMergeSpec p o k)
    ∧ mergeVars presetExample overrideExample
        = [("duration", JValue.num 2), ("ease", JValue.str "power1")] :=
  ⟨mergeVars_lookup, rfl⟩

/-- Claim C10: `timeline()` registers no scope-disposal callback — its
creation performs a hook creation and a mount registration but no
`tryOnScopeDispose` — so ending the owning scope emits no event at all on
the timeline handle; the one scope-teardown registration in this module
belongs to `activationFn`, i.e. to the tween bindings. -/
theorem timeline_no_scope_teardown (n offArg : Nat) :
    (timelineCreate n offArg).disposeCallbacks = []
    ∧ timelineScopeEnd (timelineCreate n offArg) = []
    ∧ timelineSetup.count SetupCall.tryOnScopeDispose = 0
    ∧ activationSetup.count SetupCall.tryOnScopeDispose = 1 :=
  ⟨rfl, rfl, rfl, rfl⟩

end Nugget
